import Mathlib

/-! # To-Do-List-App: authentication, session lifetime and todo privacy

A shallow embedding of `server/index.js` (the Express handlers and the
`verifyToken` middleware), `client/src/components/Login.jsx`
(`validateForm`, `handleSubmit`, the stored-credentials effect) and
`client/src/api.js` (`getTodos`).

Conventions of the embedding:

* an Express handler is a function from the request (and the store state) to
  the response it sends (and the new store state);
* `pool` (PostgreSQL behind `./db`), `bcryptjs` and `jsonwebtoken` are outside
  the sources: they are parameters of the handlers (`Pool`, `Bcrypt`, `Jwt`);
* a JavaScript `throw` inside a `try` is the `Except.error` / `none` branch of
  the call that throws, answered by the handler's `catch`;
* request body fields that reach the store as text (`name`, `email`, `title`,
  ...) are `Option String`: `none` is an absent (`undefined`) field;
* `password` and `rememberMe` are `JsValue`: the handlers test them for
  truthiness only, and bcryptjs rejects a password that is not a string.
-/

namespace TodoApp

/-! ## JavaScript values -/

/-- The JSON-borne JavaScript values a request body field can hold. -/
inductive JsValue where
  | undefined
  | null
  | bool (b : Bool)
  | number (n : Int)
  | string (s : String)
  | object
  deriving DecidableEq, Repr

/-- JavaScript truthiness (`ToBoolean`). -/
def JsValue.truthy : JsValue → Bool
  | .undefined => false
  | .null => false
  | .bool b => b
  | .number n => n != 0
  | .string s => s != ""
  | .object => true

/-- Truthiness of a text field: `!field` is true for `undefined` and for `""`. -/
def truthyStr : Option String → Bool
  | none => false
  | some s => s != ""

/-- The text a template literal interpolates for a value that is `null` or a string. -/
def interpolate : Option String → String
  | none => "null"
  | some s => s

/-- Segments of `cs` between single spaces: `String.prototype.split(" ")` on characters. -/
def splitOnSpace : List Char → List (List Char)
  | [] => [[]]
  | c :: cs =>
    if c = ' ' then [] :: splitOnSpace cs
    else
      match splitOnSpace cs with
      | [] => [[c]]
      | seg :: rest => (c :: seg) :: rest

/-- JavaScript `s.split(" ")`. -/
def jsSplit (s : String) : List String :=
  (splitOnSpace s.toList).map String.mk

/-! ## HTTP responses -/

/-- A user row of the `Users` table (`SELECT *` / `RETURNING *`). -/
structure UserRow where
  user_id : Nat
  name : String
  email : String
  password_hash : String
  deriving DecidableEq, Repr

/-- A row of the `Todos` table. -/
structure TodoRow where
  todo_id : Nat
  user_id : Nat
  title : String
  description : String
  due_date : Option String
  priority : String
  is_complete : Option Bool
  created_at : Nat
  updated_at : Option Nat
  deriving DecidableEq, Repr

/-- The JSON bodies the server sends, by shape. -/
inductive Body where
  /-- The body `{ error }`. -/
  | error (error : String)
  /-- The body `{ message }`. -/
  | message (message : String)
  /-- The body `{ message, email }`. -/
  | registered (message : String) (email : String)
  /-- The body `{ message, token, expiresIn }`. -/
  | loggedIn (message : String) (token : String) (expiresIn : Nat)
  /-- The body that is one todo row. -/
  | todo (row : TodoRow)
  /-- The body of `res.json(rows[0])` when the statement returned no row. -/
  | noRow
  /-- The body that is an array of todo rows. -/
  | todos (rows : List TodoRow)
  deriving DecidableEq, Repr

/-- The `token` member of a body, when it has one. -/
def Body.token? : Body → Option String
  | .loggedIn _ token _ => some token
  | _ => none

/-- The `expiresIn` member of a body, when it has one. -/
def Body.expiresIn? : Body → Option Nat
  | .loggedIn _ _ expiresIn => some expiresIn
  | _ => none

/-- What `res.status(status).json(body)` sends. -/
structure Response where
  status : Nat
  body : Body
  deriving DecidableEq, Repr

/-! ## jsonwebtoken -/

/-- The payload `{ user_id, name }` passed to `jwt.sign`. -/
structure Payload where
  user_id : Nat
  name : String
  deriving DecidableEq, Repr

/-- The claim set of a token: the payload with `iat` and `exp` (seconds). -/
structure Claims where
  user_id : Nat
  name : String
  iat : Nat
  exp : Nat
  deriving DecidableEq, Repr

/-- Seconds in a unit of a time-span string ("s", "m", "h", "d", "w"). -/
def unitSeconds : List Char → Option Nat
  | ['s'] => some 1
  | ['m'] => some 60
  | ['h'] => some 3600
  | ['d'] => some 86400
  | ['w'] => some 604800
  | _ => none

/-- The number written by a list of decimal digits. -/
def digitsValue (cs : List Char) : Nat :=
  cs.foldl (fun acc c => 10 * acc + (c.toNat - '0'.toNat)) 0

/-- Modelled from the spec: the duration, in seconds, that jsonwebtoken gives to
an `expiresIn` string ("1h" is one hour, "7d" is seven days): decimal digits
followed by a unit; `none` when the string is not of that form (`jwt.sign`
throws). The library is not part of the sources. -/
def timespan (s : String) : Option Nat :=
  let cs := s.toList
  let digits := cs.takeWhile Char.isDigit
  if digits = [] then none
  else (unitSeconds (cs.dropWhile Char.isDigit)).map (fun u => digitsValue digits * u)

/-- The encoders of jsonwebtoken under `process.env.JWT_SECRET`: the encoded
header, the encoding of a claim set, and the signature of `header.payload`. -/
structure Jwt where
  header : String
  encodePayload : Claims → String
  signature : String → String

/-- The claim set `jwt.sign(payload, secret, { expiresIn })` signs at instant
`now` (seconds): `iat = now`, `exp = iat + timespan expiresIn`. -/
def signedClaims (payload : Payload) (expiresIn : String) (now : Nat) : Option Claims :=
  (timespan expiresIn).map fun ttl =>
    { user_id := payload.user_id, name := payload.name, iat := now, exp := now + ttl }

/-- Modelled from the spec: the serialisation of a signed claim set, "a compact,
URL-safe string with three dot-separated segments (header, payload,
signature)". The library is not part of the sources. -/
def Jwt.serialize (jwt : Jwt) (claims : Claims) : String :=
  let signingInput := jwt.header ++ "." ++ jwt.encodePayload claims
  signingInput ++ "." ++ jwt.signature signingInput

/-- The call `jwt.sign(payload, process.env.JWT_SECRET, { expiresIn })`; `none` when it throws. -/
def Jwt.sign (jwt : Jwt) (payload : Payload) (expiresIn : String) (now : Nat) : Option String :=
  (signedClaims payload expiresIn now).map jwt.serialize

/-! ## server/index.js: verifyToken -/

/-- The part of an Express request the middleware reads. -/
structure Request where
  /-- The value of `req.header("Authorization")`, `none` when the header is absent. -/
  authorization : Option String
  deriving DecidableEq, Repr

/-- What the middleware did with a request. -/
structure GateResult where
  /-- The value assigned to `req.user`, `none` when nothing was assigned. -/
  user : Option Claims
  /-- The number of calls of `next()`. -/
  nextCalls : Nat
  /-- The responses sent, in order. -/
  responses : List Response
  deriving DecidableEq, Repr

/-- The expression `req.header("Authorization")?.split(" ")[1]`; `none` is `undefined`. -/
def extractToken (req : Request) : Option String :=
  match req.authorization with
  | none => none
  | some h => (jsSplit h)[1]?

/-- The middleware `verifyToken`. `jwtVerify token` is
`jwt.verify(token, process.env.JWT_SECRET)` at the instant of the request:
`some decoded`, or `none` when it throws. -/
def verifyToken (jwtVerify : String → Option Claims) (req : Request) : GateResult :=
  let token := extractToken req
  if !truthyStr token then
    { user := none, nextCalls := 0, responses := [⟨403, .error "Token is required"⟩] }
  else
    match jwtVerify (token.getD "") with
    | some decoded => { user := some decoded, nextCalls := 1, responses := [] }
    | none =>
      { user := none, nextCalls := 0, responses := [⟨401, .error "Invalid or expired token"⟩] }

/-! ## The collaborators of the route handlers -/

/-- The error a rejected `pool.query` throws: `err.code` (the SQLSTATE, absent
for faults that are not database errors) and `err.message`. -/
structure DbError where
  code : Option String
  message : String
  deriving DecidableEq, Repr

deriving instance DecidableEq for Except

/-- The statements the handlers send through `pool.query`, over a store state
`σ`. A statement that writes returns the state after it. -/
structure Pool (σ : Type) where
  /-- Statement `INSERT INTO Users (name, email, password_hash) VALUES ($1, $2, $3) RETURNING *` -/
  insertUser : σ → String → String → String → Except DbError (List UserRow) × σ
  /-- Statement `SELECT * FROM Users WHERE email = $1`. -/
  selectUserByEmail : σ → String → Except DbError (List UserRow)
  /-- Statement `INSERT INTO Todos (user_id, title, description, due_date, priority, is_complete,
  created_at) VALUES ($1, $2, $3, $4, $5, FALSE, CURRENT_TIMESTAMP) RETURNING *` -/
  insertTodo : σ → Nat → String → String → Option String → String →
    Except DbError (List TodoRow) × σ
  /-- Statement `SELECT * FROM Todos WHERE user_id = $1 ORDER BY created_at DESC`. -/
  selectTodosByUser : σ → Nat → Except DbError (List TodoRow)
  /-- Statement `SELECT * FROM Todos WHERE todo_id = $1 AND user_id = $2`. -/
  selectTodo : σ → Nat → Nat → Except DbError (List TodoRow)
  /-- Statement `UPDATE Todos SET title = $1, description = $2, due_date = $3, priority = $4,
  is_complete = $5, updated_at = CURRENT_TIMESTAMP WHERE todo_id = $6 AND user_id = $7
  RETURNING *` -/
  updateTodo : σ → String → String → Option String → String → Option Bool → Nat → Nat →
    Except DbError (List TodoRow) × σ
  /-- Statement `DELETE FROM Todos WHERE todo_id = $1 AND user_id = $2`. -/
  deleteTodo : σ → Nat → Nat → Except DbError Unit × σ

/-- The functions of bcryptjs the handlers call, on strings. `genSalt rounds
entropy` is the salt drawn from the random bytes `entropy`. -/
structure Bcrypt where
  genSalt : Nat → Nat → String
  hash : String → String → String
  compare : String → String → Bool

/-- The call `await bcrypt.hash(s, salt)` on a body field: bcryptjs rejects
with `Illegal arguments` when `s` is not a string (`none`: the `await` throws). -/
def Bcrypt.hashValue (bcrypt : Bcrypt) (s : JsValue) (salt : String) : Option String :=
  match s with
  | .string password => some (bcrypt.hash password salt)
  | _ => none

/-- The call `await bcrypt.compare(s, hash)` on a body field: bcryptjs rejects
with `Illegal arguments` when `s` is not a string (`none`: the `await` throws). -/
def Bcrypt.compareValue (bcrypt : Bcrypt) (s : JsValue) (hash : String) : Option Bool :=
  match s with
  | .string password => some (bcrypt.compare password hash)
  | _ => none

/-! ## server/index.js: POST /register and POST /login -/

/-- The body of `POST /register`. -/
structure RegisterBody where
  name : Option String
  email : Option String
  password : JsValue
  deriving DecidableEq, Repr

/-- The body of `POST /login`. -/
structure LoginBody where
  email : Option String
  password : JsValue
  rememberMe : JsValue
  deriving DecidableEq, Repr

/-- The handler of `POST /register`: the response and the store after it. -/
def register {σ : Type} (pool : Pool σ) (bcrypt : Bcrypt) (entropy : Nat)
    (body : RegisterBody) (s : σ) : Response × σ :=
  if !truthyStr body.name || !truthyStr body.email || !body.password.truthy then
    (⟨400, .error "All fields are required"⟩, s)
  else
    let name := body.name.getD ""
    let email := body.email.getD ""
    let salt := bcrypt.genSalt 10 entropy
    match bcrypt.hashValue body.password salt with
    | none => (⟨500, .error "Server Error"⟩, s)
    | some password_hash =>
      match pool.insertUser s name email password_hash with
      | (.ok _, s') =>
        (⟨201, .registered "Registration successful! Please login to continue." email⟩, s')
      | (.error err, s') =>
        if err.code = some "23505" then (⟨400, .error "Email already registered"⟩, s')
        else (⟨500, .error "Server Error"⟩, s')

/-- The handler of `POST /login` at instant `now` (seconds). It only reads the store. -/
def login {σ : Type} (pool : Pool σ) (bcrypt : Bcrypt) (jwt : Jwt) (now : Nat)
    (body : LoginBody) (s : σ) : Response :=
  if !truthyStr body.email || !body.password.truthy then
    ⟨400, .error "Email and password are required"⟩
  else
    let email := body.email.getD ""
    match pool.selectUserByEmail s email with
    | .error _ => ⟨500, .error "Server Error"⟩
    | .ok [] => ⟨401, .error "Invalid email or password"⟩
    | .ok (row :: _) =>
      match bcrypt.compareValue body.password row.password_hash with
      | none => ⟨500, .error "Server Error"⟩
      | some isMatch =>
        if !isMatch then ⟨401, .error "Invalid email or password"⟩
        else
          let payload : Payload := { user_id := row.user_id, name := row.name }
          let expirationTime := if body.rememberMe.truthy then "7d" else "1h"
          match jwt.sign payload expirationTime now with
          | none => ⟨500, .error "Server Error"⟩
          | some token =>
            ⟨200, .loggedIn "Login successful" token
              (if body.rememberMe.truthy then 7 * 24 * 60 * 60 * 1000 else 60 * 60 * 1000)⟩

/-! ## server/index.js: the todo routes -/

/-- The body of `POST /todos` and `PUT /todos/:id`. -/
structure TodoBody where
  title : Option String
  description : Option String
  due_date : Option String
  priority : Option String
  is_complete : Option Bool
  deriving DecidableEq, Repr

/-- The handler of `POST /todos`, run for the identity `user` that `verifyToken` put in `req.user`. -/
def createTodo {σ : Type} (pool : Pool σ) (user : Claims) (body : TodoBody) (s : σ) :
    Response × σ :=
  let user_id := user.user_id
  if !truthyStr body.title || !truthyStr body.description || !truthyStr body.priority then
    (⟨400, .error "Title, description, and priority are required"⟩, s)
  else
    match pool.insertTodo s user_id (body.title.getD "") (body.description.getD "")
        body.due_date (body.priority.getD "") with
    | (.ok (row :: _), s') => (⟨201, .todo row⟩, s')
    | (.ok [], s') => (⟨201, .noRow⟩, s')
    | (.error _, s') => (⟨500, .error "Server Error"⟩, s')

/-- The handler of `GET /todos`. -/
def listTodos {σ : Type} (pool : Pool σ) (user : Claims) (s : σ) : Response × σ :=
  let user_id := user.user_id
  match pool.selectTodosByUser s user_id with
  | .ok rows => (⟨200, .todos rows⟩, s)
  | .error _ => (⟨500, .error "Server Error"⟩, s)

/-- The handler of `GET /todos/:id`; `id` is the number the path segment denotes. -/
def getTodo {σ : Type} (pool : Pool σ) (user : Claims) (id : Nat) (s : σ) : Response × σ :=
  let user_id := user.user_id
  match pool.selectTodo s id user_id with
  | .ok [] => (⟨404, .error "Todo not found"⟩, s)
  | .ok (row :: _) => (⟨200, .todo row⟩, s)
  | .error _ => (⟨500, .error "Server Error"⟩, s)

/-- The handler of `PUT /todos/:id`. -/
def putTodo {σ : Type} (pool : Pool σ) (user : Claims) (id : Nat) (body : TodoBody) (s : σ) :
    Response × σ :=
  let user_id := user.user_id
  if !truthyStr body.title || !truthyStr body.description || !truthyStr body.priority then
    (⟨400, .error "Title, description, and priority are required"⟩, s)
  else
    match pool.selectTodo s id user_id with
    | .error _ => (⟨500, .error "Server Error"⟩, s)
    | .ok [] => (⟨404, .error "Todo not found"⟩, s)
    | .ok (_ :: _) =>
      match pool.updateTodo s (body.title.getD "") (body.description.getD "") body.due_date
          (body.priority.getD "") body.is_complete id user_id with
      | (.ok (row :: _), s') => (⟨200, .todo row⟩, s')
      | (.ok [], s') => (⟨200, .noRow⟩, s')
      | (.error _, s') => (⟨500, .error "Server Error"⟩, s')

/-- The handler of `DELETE /todos/:id`. -/
def deleteTodo {σ : Type} (pool : Pool σ) (user : Claims) (id : Nat) (s : σ) : Response × σ :=
  let user_id := user.user_id
  match pool.selectTodo s id user_id with
  | .error _ => (⟨500, .error "Server Error"⟩, s)
  | .ok [] => (⟨404, .error "Todo not found"⟩, s)
  | .ok (_ :: _) =>
    match pool.deleteTodo s id user_id with
    | (.ok _, s') => (⟨200, .message "Todo deleted successfully"⟩, s')
    | (.error _, s') => (⟨500, .error "Server Error"⟩, s')

/-- A request to one of the todo routes. -/
inductive TodoRequest where
  | post (body : TodoBody)
  | list
  | get (id : Nat)
  | put (id : Nat) (body : TodoBody)
  | delete (id : Nat)
  deriving DecidableEq, Repr

/-- The todo routes, after `verifyToken` accepted the request as `user`. -/
def todoRoute {σ : Type} (pool : Pool σ) (user : Claims) (req : TodoRequest) (s : σ) :
    Response × σ :=
  match req with
  | .post body => createTodo pool user body s
  | .list => listTodos pool user s
  | .get id => getTodo pool user id s
  | .put id body => putTodo pool user id body s
  | .delete id => deleteTodo pool user id s

/-! ## The relational store, by the statements the handlers send -/

/-- The two tables, the serial counters of their keys, and the store's clock
(`CURRENT_TIMESTAMP`). -/
structure Db where
  users : List UserRow
  todos : List TodoRow
  nextUserId : Nat
  nextTodoId : Nat
  clock : Nat
  deriving DecidableEq, Repr

/-- Insert a row into rows ordered by `created_at`, latest first. -/
def insertByCreatedAtDesc (r : TodoRow) : List TodoRow → List TodoRow
  | [] => [r]
  | x :: xs => if x.created_at ≤ r.created_at then r :: x :: xs
    else x :: insertByCreatedAtDesc r xs

/-- The rows ordered as `ORDER BY created_at DESC`. -/
def orderByCreatedAtDesc : List TodoRow → List TodoRow
  | [] => []
  | r :: rs => insertByCreatedAtDesc r (orderByCreatedAtDesc rs)

/-- The condition `todo_id = $1 AND user_id = $2`. -/
def todoMatches (id user_id : Nat) (r : TodoRow) : Bool :=
  r.todo_id == id && r.user_id == user_id

/-- The statements of `Pool` run on the in-memory tables: `Users.email` is
unique (an insert of a stored email is rejected with SQLSTATE 23505 and writes
nothing), keys are serial, and every other statement is executed. -/
def sqlPool : Pool Db where
  insertUser db name email password_hash :=
    if db.users.any (fun u => u.email == email) then
      (.error ⟨some "23505", "duplicate key value violates unique constraint"⟩, db)
    else
      let row : UserRow :=
        { user_id := db.nextUserId, name := name, email := email,
          password_hash := password_hash }
      (.ok [row], { db with users := db.users ++ [row], nextUserId := db.nextUserId + 1 })
  selectUserByEmail db email := .ok (db.users.filter (fun u => u.email == email))
  insertTodo db user_id title description due_date priority :=
    let row : TodoRow :=
      { todo_id := db.nextTodoId, user_id := user_id, title := title,
        description := description, due_date := due_date, priority := priority,
        is_complete := some false, created_at := db.clock, updated_at := none }
    (.ok [row], { db with todos := db.todos ++ [row], nextTodoId := db.nextTodoId + 1 })
  selectTodosByUser db user_id :=
    .ok (orderByCreatedAtDesc (db.todos.filter (fun r => r.user_id == user_id)))
  selectTodo db id user_id := .ok (db.todos.filter (todoMatches id user_id))
  updateTodo db title description due_date priority is_complete id user_id :=
    let set (r : TodoRow) : TodoRow :=
      { r with title := title, description := description, due_date := due_date,
               priority := priority, is_complete := is_complete,
               updated_at := some db.clock }
    (.ok ((db.todos.filter (todoMatches id user_id)).map set),
      { db with todos := db.todos.map fun r => if todoMatches id user_id r then set r else r })
  deleteTodo db id user_id :=
    (.ok (), { db with todos := db.todos.filter fun r => !todoMatches id user_id r })

/-- The rows of the `Todos` table whose `user_id` differs from `user_id`, in table order. -/
def rowsOfOthers (user_id : Nat) (db : Db) : List TodoRow :=
  db.todos.filter fun r => r.user_id != user_id

/-! ## client: localStorage -/

/-- The browser's `localStorage`: the value stored under each key. -/
abbrev Storage := String → Option String

/-- The call `localStorage.getItem(key)`; `none` is `null`. -/
def Storage.getItem (st : Storage) (key : String) : Option String := st key

/-- The call `localStorage.setItem(key, value)`. -/
def Storage.setItem (st : Storage) (key value : String) : Storage :=
  fun k => if k = key then some value else st k

/-- The call `localStorage.removeItem(key)`. -/
def Storage.removeItem (st : Storage) (key : String) : Storage :=
  fun k => if k = key then none else st k

/-! ## client/src/components/Login.jsx -/

/-- The component state `formData`: the only object posted to `/login`. -/
structure FormData where
  email : String
  password : String
  deriving DecidableEq, Repr

/-- The state of the `Login` component that `handleSubmit` reads. -/
structure LoginState where
  formData : FormData
  /-- The Remember Me checkbox (`checked={rememberMe}`). -/
  rememberMe : Bool
  deriving DecidableEq, Repr

/-- The object `validateForm` returns. -/
structure FormErrors where
  email : Option String
  password : Option String
  deriving DecidableEq, Repr

/-- White space as `String.prototype.trim` removes it. -/
def isJsSpace (c : Char) : Bool :=
  let n := c.toNat
  n == 0x09 || n == 0x0A || n == 0x0B || n == 0x0C || n == 0x0D || n == 0x20 ||
  n == 0xA0 || n == 0x1680 || (0x2000 ≤ n && n ≤ 0x200A) || n == 0x2028 || n == 0x2029 ||
  n == 0x202F || n == 0x205F || n == 0x3000 || n == 0xFEFF

/-- The class `[A-Z0-9._%+-]` under the `i` flag. -/
def isLocalChar (c : Char) : Bool :=
  c.isAlphanum || c == '.' || c == '_' || c == '%' || c == '+' || c == '-'

/-- The class `[A-Z0-9.-]` under the `i` flag. -/
def isDomainChar (c : Char) : Bool :=
  c.isAlphanum || c == '.' || c == '-'

/-- The characters after the last `.` of `cs` and the characters before it;
`none` when `cs` has no `.`. -/
def splitLastDot (cs : List Char) : Option (List Char × List Char) :=
  let tld := (cs.reverse.takeWhile (fun c => c != '.')).reverse
  if tld.length < cs.length then some (cs.take (cs.length - tld.length - 1), tld) else none

/-- The test `/^[A-Z0-9._%+-]+@[A-Z0-9.-]+\.[A-Z]{2,}$/i.test(s)`. The local part
has no `@`, so it ends at the first one; the last label has no `.`, so it starts
after the last one. -/
def emailRegexTest (s : String) : Bool :=
  let cs := s.toList
  let localPart := cs.takeWhile (fun c => c != '@')
  match cs.dropWhile (fun c => c != '@') with
  | [] => false
  | _ :: rest =>
    match splitLastDot rest with
    | none => false
    | some (domain, tld) =>
      !localPart.isEmpty && localPart.all isLocalChar &&
      !domain.isEmpty && domain.all isDomainChar &&
      decide (2 ≤ tld.length) && tld.all Char.isAlpha

/-- The function `validateForm`. -/
def validateForm (formData : FormData) : FormErrors where
  email :=
    if formData.email.toList.all isJsSpace then some "Email is required"
    else if !emailRegexTest formData.email then some "Invalid email format"
    else none
  password := if formData.password = "" then some "Password is required" else none

/-- The effect run when the component mounts: with a stored `remembered_email`
and `remember_me` equal to `"true"`, the email is filled in and the box checked. -/
def storedCredentialsEffect (storage : Storage) (state : LoginState) : LoginState :=
  let storedEmail := storage.getItem "remembered_email"
  let storedRememberMe := storage.getItem "remember_me" == some "true"
  if truthyStr storedEmail && storedRememberMe then
    { formData := { state.formData with email := storedEmail.getD "" }, rememberMe := true }
  else state

/-- The body axios sends for `axios.post(url, formData)`: the members of
`formData`, and no other. -/
def requestBody (formData : FormData) : LoginBody :=
  { email := some formData.email, password := .string formData.password,
    rememberMe := .undefined }

/-- What `handleSubmit` leaves behind. -/
structure SubmitResult where
  /-- The body posted to `/login`, `none` when no request was made. -/
  posted : Option LoginBody
  /-- The `localStorage` afterwards. -/
  storage : Storage
  /-- The value of `axios.defaults.headers.common['Authorization']`, when assigned. -/
  defaultAuthorization : Option String
  /-- The route passed to `navigate`, if any. -/
  navigatedTo : Option String
  /-- The field errors passed to `setErrors`, if any. -/
  fieldErrors : Option FormErrors
  /-- The message passed to `setErrors`, if any. -/
  errorMessage : Option String

/-- The text JavaScript stores for a value that is `undefined` or a string. -/
def jsString : Option String → String
  | none => "undefined"
  | some s => s

/-- The text JavaScript stores for `now + expiresIn`: the decimal sum, or `NaN`
when `expiresIn` is `undefined`. -/
def expiryText (now : Nat) : Option Nat → String
  | none => "NaN"
  | some expiresIn => toString (now + expiresIn)

/-- The message of the `catch` branch:
`error.response?.data?.error || "Login failed. Please try again."`, with the
wording of `Invalid email or password` extended. -/
def loginErrorMessage (body : Body) : String :=
  let errorMessage :=
    match body with
    | .error e => if e = "" then "Login failed. Please try again." else e
    | _ => "Login failed. Please try again."
  if errorMessage = "Invalid email or password" then
    "Invalid email or password. Please try again."
  else errorMessage

/-- The function `handleSubmit` run at instant `now` (milliseconds) against
the server `server`: axios resolves for a status from 200 to 299 and rejects
otherwise. -/
def handleSubmit (server : LoginBody → Response) (now : Nat) (state : LoginState)
    (storage : Storage) : SubmitResult :=
  let validationErrors := validateForm state.formData
  if validationErrors.email.isSome || validationErrors.password.isSome then
    { posted := none, storage := storage, defaultAuthorization := none, navigatedTo := none,
      fieldErrors := some validationErrors, errorMessage := none }
  else
    let body := requestBody state.formData
    let response := server body
    if 200 ≤ response.status && response.status < 300 then
      let token := response.body.token?
      let expiresIn := response.body.expiresIn?
      let st1 :=
        if state.rememberMe then
          (storage.setItem "remembered_email" state.formData.email).setItem "remember_me" "true"
        else
          (storage.removeItem "remembered_email").setItem "remember_me" "false"
      let st2 := st1.setItem "auth_token" (jsString token)
      let st3 := st2.setItem "token_expiry" (expiryText now expiresIn)
      { posted := some body, storage := st3,
        defaultAuthorization := some ("Bearer " ++ jsString token),
        navigatedTo := some "/dashboard", fieldErrors := none, errorMessage := none }
    else
      { posted := some body, storage := storage, defaultAuthorization := none,
        navigatedTo := none, fieldErrors := none,
        errorMessage := some (loginErrorMessage response.body) }

/-! ## client/src/api.js -/

/-- The module-level binding of `api.js`: `token`, evaluated when the module is loaded. -/
structure ApiModule where
  token : Option String
  deriving DecidableEq, Repr

/-- Loading `api.js`: `const token = localStorage.getItem("auth_token")`. -/
def loadApi (storage : Storage) : ApiModule :=
  { token := storage.getItem "auth_token" }

/-- The `Authorization` header of the request `getTodos` makes: the one of its
config, which axios puts over `axios.defaults.headers.common`. -/
def getTodosAuthorization (api : ApiModule) : String :=
  "Bearer " ++ interpolate api.token

/-! ## Assumptions on the collaborators -/

/-- The store enforces email uniqueness: an insert with an already-stored email
fails with code 23505 and changes nothing. -/
def Pool.EnforcesUniqueEmail {σ : Type} (pool : Pool σ) : Prop :=
  ∀ (s : σ) (name email hash : String) (row : UserRow) (rest : List UserRow),
    pool.selectUserByEmail s email = .ok (row :: rest) →
    ∃ err, pool.insertUser s name email hash = (.error err, s) ∧ err.code = some "23505"

/-- The store holds an email once an insert of it succeeded. -/
def Pool.StoresInserted {σ : Type} (pool : Pool σ) : Prop :=
  ∀ (s s' : σ) (name email hash : String) (rows : List UserRow),
    pool.insertUser s name email hash = (.ok rows, s') →
    ∃ row rest, pool.selectUserByEmail s' email = .ok (row :: rest)

/-- The store returns what was inserted: an insert with an email that is not
stored succeeds, and the next select of that email gives a row with the name,
the email and the hash inserted. -/
def Pool.ReturnsInserted {σ : Type} (pool : Pool σ) : Prop :=
  ∀ (s : σ) (name email hash : String),
    pool.selectUserByEmail s email = .ok [] →
    ∃ rows s' row rest, pool.insertUser s name email hash = (.ok rows, s') ∧
      pool.selectUserByEmail s' email = .ok (row :: rest) ∧
      row.name = name ∧ row.email = email ∧ row.password_hash = hash

/-- The hasher verifies what it hashed: `compare(p, hash(p, salt))` is true. -/
def Bcrypt.VerifiesOwnHash (bcrypt : Bcrypt) : Prop :=
  ∀ (password salt : String), bcrypt.compare password (bcrypt.hash password salt) = true

/-! ## Concrete collaborators, for evaluating the handlers -/

/-- A verifier that accepts the token `good` alone. -/
def exampleVerify : String → Option Claims :=
  fun t => if t = "good" then some ⟨1, "Ann", 0, 3600⟩ else none

/-- A hasher with one salt, written before the password. -/
def exampleBcrypt : Bcrypt where
  genSalt _ _ := "salt."
  hash password _ := "salt." ++ password
  compare password hash := hash == "salt." ++ password

/-- Encoders that write the claims in clear. -/
def exampleJwt : Jwt where
  header := "hdr"
  encodePayload claims := claims.name
  signature _ := "sig"

/-- A store with two users and one todo of each. -/
def exampleDb : Db where
  users := [⟨1, "Ann", "ann@example.com", "salt.pw1"⟩, ⟨2, "Bob", "bob@example.com", "salt.pw2"⟩]
  todos :=
    [⟨1, 1, "milk", "buy milk", none, "low", some false, 5, none⟩,
     ⟨2, 2, "rent", "pay rent", none, "high", some false, 7, none⟩]
  nextUserId := 3
  nextTodoId := 3
  clock := 10

/-- A store and the number of inserts of a new user its connection will drop. -/
structure OutageDb where
  outages : Nat
  db : Db
  deriving DecidableEq, Repr

/-- The statements of `sqlPool` behind a connection that drops the next
`outages` inserts of a user whose email is not stored: such an insert fails
with SQLSTATE 08006 and writes nothing; an insert of a stored email is
rejected with 23505 as before. -/
def outagePool : Pool OutageDb where
  insertUser s name email password_hash :=
    if s.db.users.any (fun u => u.email == email) then
      (.error ⟨some "23505", "duplicate key value violates unique constraint"⟩, s)
    else if 0 < s.outages then
      (.error ⟨some "08006", "connection failure"⟩, { s with outages := s.outages - 1 })
    else
      ((sqlPool.insertUser s.db name email password_hash).1,
        { s with db := (sqlPool.insertUser s.db name email password_hash).2 })
  selectUserByEmail s email := sqlPool.selectUserByEmail s.db email
  insertTodo s user_id title description due_date priority :=
    ((sqlPool.insertTodo s.db user_id title description due_date priority).1,
      { s with db := (sqlPool.insertTodo s.db user_id title description due_date priority).2 })
  selectTodosByUser s user_id := sqlPool.selectTodosByUser s.db user_id
  selectTodo s id user_id := sqlPool.selectTodo s.db id user_id
  updateTodo s title description due_date priority is_complete id user_id :=
    ((sqlPool.updateTodo s.db title description due_date priority is_complete id user_id).1,
      { s with db :=
        (sqlPool.updateTodo s.db title description due_date priority is_complete id user_id).2 })
  deleteTodo s id user_id :=
    ((sqlPool.deleteTodo s.db id user_id).1, { s with db := (sqlPool.deleteTodo s.db id user_id).2 })

/-- The login route of the example server: `login` at instant 100 on the example store. -/
def exampleServer (body : LoginBody) : Response :=
  login sqlPool exampleBcrypt exampleJwt 100 body exampleDb

/-- An empty `localStorage`. -/
def emptyStorage : Storage := fun _ => none

/-! ## Theorems -/

/-! ### verifyToken -/

/-- C3 (counterexample): the request carries an `Authorization` header, `Bearer`,
and no token verifies, yet the answer is 403 `Token is required`, not 401. -/
theorem verifyToken_header_without_token_is_403 :
    (⟨some "Bearer"⟩ : Request).authorization ≠ none ∧
    (verifyToken (fun _ => none) ⟨some "Bearer"⟩).responses =
      [⟨403, .error "Token is required"⟩] ∧
    (verifyToken (fun _ => none) ⟨some "Bearer"⟩).responses ≠
      [⟨401, .error "Invalid or expired token"⟩] := by
  decide

/-- C3 (amended): the answer is 403 `Token is required` exactly when no token
can be read from the request: there is no `Authorization` header, or the second
space-separated segment of its value is missing or empty. A request whose
header has a non-empty second segment that does not verify is answered 401
`Invalid or expired token`. -/
theorem verifyToken_403_iff_no_token (jwtVerify : String → Option Claims) (req : Request) :
    ((verifyToken jwtVerify req).responses = [⟨403, .error "Token is required"⟩] ↔
      (req.authorization = none ∨
        ∃ h, req.authorization = some h ∧
          ((jsSplit h)[1]? = none ∨ (jsSplit h)[1]? = some ""))) ∧
    (∀ h t, req.authorization = some h → (jsSplit h)[1]? = some t → t ≠ "" →
      jwtVerify t = none →
      (verifyToken jwtVerify req).responses = [⟨401, .error "Invalid or expired token"⟩]) := by
  obtain ⟨auth⟩ := req
  refine ⟨?_, ?_⟩
  · cases auth with
    | none => simp [verifyToken, extractToken, truthyStr]
    | some h =>
      cases hseg : (jsSplit h)[1]? with
      | none =>
        have hl : (jsSplit h).length ≤ 1 := List.getElem?_eq_none_iff.mp hseg
        simp [verifyToken, extractToken, truthyStr, hseg, hl]
      | some t =>
        have hl : 1 < (jsSplit h).length := by
          rcases Nat.lt_or_ge 1 (jsSplit h).length with hlt | hge
          · exact hlt
          · rw [List.getElem?_eq_none_iff.mpr hge] at hseg
            cases hseg
        by_cases ht : t = ""
        · subst ht
          simp [verifyToken, extractToken, truthyStr, hseg]
        · cases hv : jwtVerify t <;>
            simp [verifyToken, extractToken, truthyStr, hseg, ht, hv, hl]
  · intro h t hauth hseg ht hv
    simp only at hauth
    subst hauth
    simp [verifyToken, extractToken, truthyStr, hseg, ht, hv]

/-- C3 (witness): the header `Bearer bad` has the non-empty second segment `bad`,
which does not verify: 401. -/
theorem verifyToken_403_iff_no_token_witness :
    (verifyToken exampleVerify ⟨some "Bearer bad"⟩).responses =
      [⟨401, .error "Invalid or expired token"⟩] :=
  (verifyToken_403_iff_no_token exampleVerify ⟨some "Bearer bad"⟩).2
    "Bearer bad" "bad" rfl (by decide) (by decide) (by decide)

/-- C4: `next` is called if and only if a token is read from the request and
verifies; then it is called once, no response is sent and `req.user` is the
decoded claim set; otherwise `next` is not called, `req.user` is not assigned
and exactly one response, an error, is sent. -/
theorem verifyToken_next_iff_verified (jwtVerify : String → Option Claims) (req : Request) :
    (1 ≤ (verifyToken jwtVerify req).nextCalls ↔
      ∃ t c, extractToken req = some t ∧ t ≠ "" ∧ jwtVerify t = some c) ∧
    (∀ t c, extractToken req = some t → t ≠ "" → jwtVerify t = some c →
      verifyToken jwtVerify req = { user := some c, nextCalls := 1, responses := [] }) ∧
    ((¬ ∃ t c, extractToken req = some t ∧ t ≠ "" ∧ jwtVerify t = some c) →
      (verifyToken jwtVerify req).nextCalls = 0 ∧
      (verifyToken jwtVerify req).user = none ∧
      ∃ status msg, 400 ≤ status ∧
        (verifyToken jwtVerify req).responses = [⟨status, .error msg⟩]) := by
  cases hseg : extractToken req with
  | none => simp [verifyToken, truthyStr, hseg]
  | some t =>
    by_cases ht : t = ""
    · subst ht
      refine ⟨?_, ?_, ?_⟩
      · simp [verifyToken, truthyStr, hseg]
      · intro t c h1 h2
        exact absurd (Option.some.inj h1).symm h2
      · intro _
        simp [verifyToken, truthyStr, hseg]
    · cases hv : jwtVerify t with
      | none =>
        refine ⟨?_, ?_, ?_⟩
        · simp [verifyToken, truthyStr, hseg, ht, hv]
        · intro t2 c h1 _ h3
          cases h1
          rw [hv] at h3
          cases h3
        · intro _
          simp [verifyToken, truthyStr, hseg, ht, hv]
      | some c =>
        refine ⟨?_, ?_, ?_⟩
        · simp [verifyToken, truthyStr, hseg, ht, hv]
        · intro t2 c2 h1 _ h3
          cases h1
          rw [hv] at h3
          cases h3
          simp [verifyToken, truthyStr, hseg, ht, hv]
        · intro hno
          exact absurd ⟨t, c, rfl, ht, hv⟩ hno

/-- C4 (witness): `Bearer good` verifies: `next` runs once with the decoded claims. -/
theorem verifyToken_next_iff_verified_witness :
    verifyToken exampleVerify ⟨some "Bearer good"⟩ =
      { user := some ⟨1, "Ann", 0, 3600⟩, nextCalls := 1, responses := [] } :=
  (verifyToken_next_iff_verified exampleVerify ⟨some "Bearer good"⟩).2.1
    "good" ⟨1, "Ann", 0, 3600⟩ (by decide) (by decide) (by decide)

/-! ### POST /login and POST /register -/

theorem timespan_7d : timespan "7d" = some 604800 := by decide

theorem timespan_1h : timespan "1h" = some 3600 := by decide

/-- The token of a successful login, for a record found whose hash matches. -/
theorem login_success {σ : Type} (pool : Pool σ) (bcrypt : Bcrypt) (jwt : Jwt) (now : Nat)
    (body : LoginBody) (s : σ) (row : UserRow) (rest : List UserRow)
    (hemail : truthyStr body.email = true) (hpassword : body.password.truthy = true)
    (hrow : pool.selectUserByEmail s (body.email.getD "") = .ok (row :: rest))
    (hmatch : bcrypt.compareValue body.password row.password_hash = some true) :
    login pool bcrypt jwt now body s =
      ⟨200, .loggedIn "Login successful"
        (jwt.serialize ⟨row.user_id, row.name, now,
          now + (if body.rememberMe.truthy then 604800 else 3600)⟩)
        (if body.rememberMe.truthy then 604800000 else 3600000)⟩ := by
  by_cases hr : body.rememberMe.truthy = true
  · simp [login, hemail, hpassword, hrow, hmatch, hr, Jwt.sign, signedClaims, timespan_7d]
  · simp [login, hemail, hpassword, hrow, hmatch, hr, Jwt.sign, signedClaims, timespan_1h]

/-- C1: a login whose record is found and whose password matches is answered
200 with a token signed over `exp = iat + ttl` and `expiresIn = 1000 * ttl`:
`ttl` is seven days and `expiresIn` 604800000 when `rememberMe` is `true`, one
hour and 3600000 when `rememberMe` is falsy or absent. -/
theorem login_expiresIn_is_token_ttl {σ : Type} (pool : Pool σ) (bcrypt : Bcrypt) (jwt : Jwt)
    (now : Nat) (body : LoginBody) (s : σ) (row : UserRow) (rest : List UserRow)
    (hemail : truthyStr body.email = true) (hpassword : body.password.truthy = true)
    (hrow : pool.selectUserByEmail s (body.email.getD "") = .ok (row :: rest))
    (hmatch : bcrypt.compareValue body.password row.password_hash = some true) :
    ∃ ttl expiresIn,
      jwt.sign ⟨row.user_id, row.name⟩ (if body.rememberMe.truthy then "7d" else "1h") now =
        some (jwt.serialize ⟨row.user_id, row.name, now, now + ttl⟩) ∧
      login pool bcrypt jwt now body s =
        ⟨200, .loggedIn "Login successful"
          (jwt.serialize ⟨row.user_id, row.name, now, now + ttl⟩) expiresIn⟩ ∧
      expiresIn = 1000 * ttl ∧
      (body.rememberMe = .bool true → ttl = 7 * 24 * 60 * 60 ∧ expiresIn = 604800000) ∧
      (body.rememberMe.truthy = false → ttl = 60 * 60 ∧ expiresIn = 3600000) := by
  refine ⟨if body.rememberMe.truthy then 604800 else 3600,
    if body.rememberMe.truthy then 604800000 else 3600000, ?_,
    login_success pool bcrypt jwt now body s row rest hemail hpassword hrow hmatch, ?_, ?_, ?_⟩
  · by_cases hr : body.rememberMe.truthy = true
    · simp [hr, Jwt.sign, signedClaims, timespan_7d]
    · simp [hr, Jwt.sign, signedClaims, timespan_1h]
  · by_cases hr : body.rememberMe.truthy = true <;> simp [hr]
  · intro h
    simp [h, JsValue.truthy]
  · intro h
    simp [h]

/-- C1 (witness): Ann logs in with `rememberMe: true` at instant 100. -/
theorem login_expiresIn_is_token_ttl_witness :
    ∃ ttl expiresIn,
      exampleJwt.sign ⟨1, "Ann"⟩ "7d" 100 = some (exampleJwt.serialize ⟨1, "Ann", 100, 100 + ttl⟩) ∧
      login sqlPool exampleBcrypt exampleJwt 100
          ⟨some "ann@example.com", .string "pw1", .bool true⟩ exampleDb =
        ⟨200, .loggedIn "Login successful"
          (exampleJwt.serialize ⟨1, "Ann", 100, 100 + ttl⟩) expiresIn⟩ ∧
      expiresIn = 1000 * ttl ∧
      ((JsValue.bool true = .bool true) → ttl = 7 * 24 * 60 * 60 ∧ expiresIn = 604800000) ∧
      ((JsValue.bool true).truthy = false → ttl = 60 * 60 ∧ expiresIn = 3600000) :=
  login_expiresIn_is_token_ttl sqlPool exampleBcrypt exampleJwt 100
    ⟨some "ann@example.com", .string "pw1", .bool true⟩ exampleDb
    ⟨1, "Ann", "ann@example.com", "salt.pw1"⟩ [] (by decide) (by decide) (by decide) (by decide)

/-- With a password that is a string, the response to a login for which no
record exists equals the response to a login whose record exists and whose
password does not match the hash: 401 `Invalid email or password`, without a
token. -/
theorem login_text_password_indistinguishable {σ : Type} (pool : Pool σ)
    (bcrypt : Bcrypt) (jwt : Jwt) (now₁ now₂ : Nat) (body₁ body₂ : LoginBody) (s₁ s₂ : σ)
    (row : UserRow) (rest : List UserRow)
    (hemail₁ : truthyStr body₁.email = true) (hpassword₁ : body₁.password.truthy = true)
    (hemail₂ : truthyStr body₂.email = true) (hpassword₂ : body₂.password.truthy = true)
    (habsent : pool.selectUserByEmail s₁ (body₁.email.getD "") = .ok [])
    (hpresent : pool.selectUserByEmail s₂ (body₂.email.getD "") = .ok (row :: rest))
    (hmismatch : bcrypt.compareValue body₂.password row.password_hash = some false) :
    login pool bcrypt jwt now₁ body₁ s₁ = login pool bcrypt jwt now₂ body₂ s₂ ∧
    login pool bcrypt jwt now₁ body₁ s₁ = ⟨401, .error "Invalid email or password"⟩ ∧
    (login pool bcrypt jwt now₁ body₁ s₁).body.token? = none ∧
    (login pool bcrypt jwt now₂ body₂ s₂).body.token? = none := by
  have h1 : login pool bcrypt jwt now₁ body₁ s₁ = ⟨401, .error "Invalid email or password"⟩ := by
    simp [login, hemail₁, hpassword₁, habsent]
  have h2 : login pool bcrypt jwt now₂ body₂ s₂ = ⟨401, .error "Invalid email or password"⟩ := by
    simp [login, hemail₂, hpassword₂, hpresent, hmismatch]
  rw [h1, h2]
  exact ⟨rfl, rfl, rfl, rfl⟩

/-- A login with a truthy password that is not a string is answered 401 when no
record exists for the email and 500 when one does, for every store and hasher. -/
theorem login_nonstring_password {σ : Type} (pool : Pool σ) (bcrypt : Bcrypt) (jwt : Jwt)
    (now : Nat) (body : LoginBody) (s : σ)
    (hemail : truthyStr body.email = true) (hpassword : body.password.truthy = true)
    (hnot : ∀ p, body.password ≠ .string p) :
    (pool.selectUserByEmail s (body.email.getD "") = .ok [] →
      login pool bcrypt jwt now body s = ⟨401, .error "Invalid email or password"⟩) ∧
    (∀ row rest, pool.selectUserByEmail s (body.email.getD "") = .ok (row :: rest) →
      login pool bcrypt jwt now body s = ⟨500, .error "Server Error"⟩) := by
  refine ⟨?_, ?_⟩
  · intro habsent
    simp [login, hemail, hpassword, habsent]
  · intro row rest hpresent
    have hcmp : bcrypt.compareValue body.password row.password_hash = none := by
      cases hp : body.password with
      | string p => exact absurd hp (hnot p)
      | _ => rfl
    simp [login, hemail, hpassword, hpresent, hcmp]

/-- C5 (the code at the failing input): a login with the password `123`, a
number, is answered 500 `Server Error` for Ann's email, which has a record whose
hash the password does not match, and 401 `Invalid email or password` for an
email that has no record: the two responses differ. -/
theorem login_number_password_reveals_record :
    (exampleDb.users.filter (fun u => u.email == "ann@example.com")).length = 1 ∧
    (exampleDb.users.filter (fun u => u.email == "nobody@example.com")).length = 0 ∧
    login sqlPool exampleBcrypt exampleJwt 100
        ⟨some "ann@example.com", .number 123, .undefined⟩ exampleDb =
      ⟨500, .error "Server Error"⟩ ∧
    login sqlPool exampleBcrypt exampleJwt 100
        ⟨some "nobody@example.com", .number 123, .undefined⟩ exampleDb =
      ⟨401, .error "Invalid email or password"⟩ ∧
    login sqlPool exampleBcrypt exampleJwt 100
        ⟨some "ann@example.com", .number 123, .undefined⟩ exampleDb ≠
      login sqlPool exampleBcrypt exampleJwt 100
        ⟨some "nobody@example.com", .number 123, .undefined⟩ exampleDb := by
  decide

theorem sqlPool_enforcesUniqueEmail : sqlPool.EnforcesUniqueEmail := by
  intro db name email hash row rest hsel
  have hmem : row ∈ db.users.filter (fun u => u.email == email) := by
    have h : db.users.filter (fun u => u.email == email) = row :: rest := by
      simpa [sqlPool] using hsel
    rw [h]
    exact List.mem_cons_self _ _
  have hany : db.users.any (fun u => u.email == email) = true :=
    List.any_eq_true.mpr ⟨row, (List.mem_filter.mp hmem).1, (List.mem_filter.mp hmem).2⟩
  refine ⟨⟨some "23505", "duplicate key value violates unique constraint"⟩, ?_, rfl⟩
  show (if db.users.any (fun u => u.email == email) = true then _ else _) = _
  rw [if_pos hany]

theorem outagePool_enforcesUniqueEmail : outagePool.EnforcesUniqueEmail := by
  intro s name email hash row rest hsel
  have hmem : row ∈ s.db.users.filter (fun u => u.email == email) := by
    have h : s.db.users.filter (fun u => u.email == email) = row :: rest := by
      simpa [outagePool, sqlPool] using hsel
    rw [h]
    exact List.mem_cons_self _ _
  have hany : s.db.users.any (fun u => u.email == email) = true :=
    List.any_eq_true.mpr ⟨row, (List.mem_filter.mp hmem).1, (List.mem_filter.mp hmem).2⟩
  refine ⟨⟨some "23505", "duplicate key value violates unique constraint"⟩, ?_, rfl⟩
  show (if s.db.users.any (fun u => u.email == email) = true then _ else _) = _
  rw [if_pos hany]

theorem sqlPool_storesInserted : sqlPool.StoresInserted := by
  intro db db' name email hash rows hins
  by_cases hany : db.users.any (fun u => u.email == email) = true
  · have h : sqlPool.insertUser db name email hash =
        (.error ⟨some "23505", "duplicate key value violates unique constraint"⟩, db) := by
      show (if db.users.any (fun u => u.email == email) = true then _ else _) = _
      rw [if_pos hany]
    rw [h] at hins
    cases hins
  · have h : sqlPool.insertUser db name email hash =
        (.ok [⟨db.nextUserId, name, email, hash⟩],
          { db with users := db.users ++ [⟨db.nextUserId, name, email, hash⟩],
                    nextUserId := db.nextUserId + 1 }) := by
      show (if db.users.any (fun u => u.email == email) = true then _ else _) = _
      rw [if_neg hany]
    rw [h] at hins
    cases hins
    show ∃ row rest, Except.ok (List.filter _ (db.users ++ _)) = _
    rw [List.filter_append]
    cases db.users.filter (fun u => u.email == email) with
    | nil => exact ⟨⟨db.nextUserId, name, email, hash⟩, [], by simp [List.filter]⟩
    | cons r rs => exact ⟨r, _, rfl⟩

theorem sqlPool_returnsInserted : sqlPool.ReturnsInserted := by
  intro db name email hash hsel
  have hfil : db.users.filter (fun u => u.email == email) = [] := by
    simpa [sqlPool] using hsel
  have hany : db.users.any (fun u => u.email == email) = false := by
    rw [Bool.eq_false_iff]
    intro h
    obtain ⟨u, hu, he⟩ := List.any_eq_true.mp h
    have : u ∈ db.users.filter (fun u => u.email == email) := List.mem_filter.mpr ⟨hu, he⟩
    rw [hfil] at this
    cases this
  refine ⟨[⟨db.nextUserId, name, email, hash⟩],
    { db with users := db.users ++ [⟨db.nextUserId, name, email, hash⟩],
              nextUserId := db.nextUserId + 1 },
    ⟨db.nextUserId, name, email, hash⟩, [], ?_, ?_, rfl, rfl, rfl⟩
  · show (if db.users.any (fun u => u.email == email) = true then _ else _) = _
    rw [if_neg (by simp only [hany]; decide)]
  · show Except.ok (List.filter _ (db.users ++ _)) = _
    rw [List.filter_append, hfil]
    simp [List.filter]

theorem exampleBcrypt_verifiesOwnHash : exampleBcrypt.VerifiesOwnHash := by
  intro password salt
  simp [exampleBcrypt]

theorem serialize_ne_empty (jwt : Jwt) (claims : Claims) : jwt.serialize claims ≠ "" := by
  intro h
  have hlen := congrArg String.length h
  simp only [Jwt.serialize, String.length_append] at hlen
  have hdot : ".".length = 1 := by decide
  have hnil : "".length = 0 := by decide
  omega

/-- What `register` answers by the outcome of the insert, when the name and the
email are present and the password is a non-empty string. -/
theorem register_of_fields {σ : Type} (pool : Pool σ) (bcrypt : Bcrypt) (entropy : Nat)
    (body : RegisterBody) (password : String) (s : σ)
    (hname : truthyStr body.name = true) (hemail : truthyStr body.email = true)
    (hpassword : body.password = .string password) (hne : password ≠ "") :
    register pool bcrypt entropy body s =
      match pool.insertUser s (body.name.getD "") (body.email.getD "")
          (bcrypt.hash password (bcrypt.genSalt 10 entropy)) with
      | (.ok _, s') =>
        (⟨201, .registered "Registration successful! Please login to continue."
          (body.email.getD "")⟩, s')
      | (.error err, s') =>
        if err.code = some "23505" then (⟨400, .error "Email already registered"⟩, s')
        else (⟨500, .error "Server Error"⟩, s') := by
  simp [register, hname, hemail, hpassword, hne, JsValue.truthy, Bcrypt.hashValue]

/-- A register request answered 201 made an insert of its email that succeeded. -/
theorem register_created {σ : Type} (pool : Pool σ) (bcrypt : Bcrypt) (entropy : Nat)
    (body : RegisterBody) (s : σ)
    (h : (register pool bcrypt entropy body s).1.status = 201) :
    ∃ hash rows, pool.insertUser s (body.name.getD "") (body.email.getD "") hash =
      (.ok rows, (register pool bcrypt entropy body s).2) := by
  unfold register at h ⊢
  split at h
  · simp at h
  · rename_i hfields
    simp only [hfields]
    cases hh : bcrypt.hashValue body.password (bcrypt.genSalt 10 entropy) with
    | none => simp [hh] at h
    | some hash =>
      simp only [hh] at h ⊢
      rcases hins : pool.insertUser s (body.name.getD "") (body.email.getD "") hash with ⟨r, s'⟩
      cases r with
      | ok rows => exact ⟨hash, rows, by simp [hins]⟩
      | error err =>
        rw [hins] at h
        by_cases hc : err.code = some "23505" <;> simp [hc] at h

/-- A register request whose password is truthy and not a string is answered
500 `Server Error` before any insert: the store is as before. -/
theorem register_nonstring_password {σ : Type} (pool : Pool σ) (bcrypt : Bcrypt)
    (entropy : Nat) (body : RegisterBody) (s : σ)
    (hname : truthyStr body.name = true) (hemail : truthyStr body.email = true)
    (hpassword : body.password.truthy = true) (hnot : ∀ p, body.password ≠ .string p) :
    register pool bcrypt entropy body s = (⟨500, .error "Server Error"⟩, s) := by
  have hh : bcrypt.hashValue body.password (bcrypt.genSalt 10 entropy) = none := by
    cases hp : body.password with
    | string p => exact absurd hp (hnot p)
    | _ => rfl
  simp [register, hname, hemail, hpassword, hh]

/-- C6 (counterexample): on a store that enforces email uniqueness, Cy's
registration meets a dropped connection and is answered 500; Dee's, with the
same email and all three fields present, is then answered 201, not 400
`Email already registered`, and the store after it is not the store after the
first. -/
theorem register_second_succeeds_after_failed_first :
    outagePool.EnforcesUniqueEmail ∧
    register outagePool exampleBcrypt 7 ⟨some "Cy", some "cy@example.com", .string "pw3"⟩
        ⟨1, exampleDb⟩ = (⟨500, .error "Server Error"⟩, ⟨0, exampleDb⟩) ∧
    (register outagePool exampleBcrypt 8 ⟨some "Dee", some "cy@example.com", .string "pw4"⟩
        ⟨0, exampleDb⟩).1 =
      ⟨201, .registered "Registration successful! Please login to continue."
        "cy@example.com"⟩ ∧
    (register outagePool exampleBcrypt 8 ⟨some "Dee", some "cy@example.com", .string "pw4"⟩
        ⟨0, exampleDb⟩).2 ≠ ⟨0, exampleDb⟩ :=
  ⟨outagePool_enforcesUniqueEmail, by decide, by decide, by decide⟩

/-- C6 (amended): with a store that enforces email uniqueness and holds an
email once an insert of it succeeded, of two register requests with the same
email, the first answered 201 and the second with name and email present and a
non-empty string as password, the second is answered 400
`Email already registered` and leaves the store as the first left it; a
register request with such fields whose insert fails with any other code is
answered 500 `Server Error`. -/
theorem register_duplicate_email {σ : Type} (pool : Pool σ) (bcrypt : Bcrypt)
    (entropy₁ entropy₂ : Nat) (first second : RegisterBody) (password₂ : String) (s : σ)
    (huniq : pool.EnforcesUniqueEmail) (hstores : pool.StoresInserted)
    (hfirst : (register pool bcrypt entropy₁ first s).1.status = 201)
    (hname₂ : truthyStr second.name = true) (hemail₂ : truthyStr second.email = true)
    (hpassword₂ : second.password = .string password₂) (hne₂ : password₂ ≠ "")
    (hsame : first.email = second.email) :
    register pool bcrypt entropy₂ second (register pool bcrypt entropy₁ first s).2 =
      (⟨400, .error "Email already registered"⟩, (register pool bcrypt entropy₁ first s).2) ∧
    (∀ (body : RegisterBody) (password : String) (s₀ s' : σ) (entropy : Nat) (err : DbError),
      truthyStr body.name = true → truthyStr body.email = true →
      body.password = .string password → password ≠ "" →
      pool.insertUser s₀ (body.name.getD "") (body.email.getD "")
        (bcrypt.hash password (bcrypt.genSalt 10 entropy)) = (.error err, s') →
      err.code ≠ some "23505" →
      (register pool bcrypt entropy body s₀).1 = ⟨500, .error "Server Error"⟩) := by
  refine ⟨?_, ?_⟩
  · obtain ⟨hash, rows, hins₁⟩ := register_created pool bcrypt entropy₁ first s hfirst
    obtain ⟨row, rest, hsel⟩ := hstores _ _ _ _ _ _ hins₁
    rw [hsame] at hsel
    obtain ⟨err, hins, hcode⟩ := huniq _ (second.name.getD "") (second.email.getD "")
      (bcrypt.hash password₂ (bcrypt.genSalt 10 entropy₂)) row rest hsel
    rw [register_of_fields pool bcrypt entropy₂ second password₂ _ hname₂ hemail₂ hpassword₂
      hne₂, hins]
    simp [hcode]
  · intro body password s₀ s' entropy err hn he hp hne hins hcode
    rw [register_of_fields pool bcrypt entropy body password s₀ hn he hp hne, hins]
    simp [hcode]

/-- C6 (witness): Cy registers, then Dee tries Cy's email. -/
theorem register_duplicate_email_witness :
    register sqlPool exampleBcrypt 8 ⟨some "Dee", some "cy@example.com", .string "pw4"⟩
        (register sqlPool exampleBcrypt 7 ⟨some "Cy", some "cy@example.com", .string "pw3"⟩
          exampleDb).2 =
      (⟨400, .error "Email already registered"⟩,
        (register sqlPool exampleBcrypt 7 ⟨some "Cy", some "cy@example.com", .string "pw3"⟩
          exampleDb).2) :=
  (register_duplicate_email sqlPool exampleBcrypt 7 8
    ⟨some "Cy", some "cy@example.com", .string "pw3"⟩
    ⟨some "Dee", some "cy@example.com", .string "pw4"⟩ "pw4" exampleDb
    sqlPool_enforcesUniqueEmail sqlPool_storesInserted (by decide) (by decide) (by decide)
    rfl (by decide) rfl).1

/-- C7: with a hasher that verifies what it hashed and a store that returns
what was inserted, registering a non-empty name, email and password whose
email is not yet registered is answered 201 with the message and the email
submitted, without a token, and a login with the same email and password right
after it is answered 200 with a non-empty token, the serialisation of a claim
set bearing the stored record's `user_id` and `name`. -/
theorem register_then_login {σ : Type} (pool : Pool σ) (bcrypt : Bcrypt) (jwt : Jwt)
    (entropy now : Nat) (name email password : String) (rememberMe : JsValue) (s : σ)
    (hhash : bcrypt.VerifiesOwnHash) (hstore : pool.ReturnsInserted)
    (hname : name ≠ "") (hemail : email ≠ "") (hpassword : password ≠ "")
    (hnew : pool.selectUserByEmail s email = .ok []) :
    (register pool bcrypt entropy ⟨some name, some email, .string password⟩ s).1 =
      ⟨201, .registered "Registration successful! Please login to continue." email⟩ ∧
    (register pool bcrypt entropy ⟨some name, some email, .string password⟩ s).1.body.token? =
      none ∧
    ∃ row rest token expiresIn claims,
      pool.selectUserByEmail
        (register pool bcrypt entropy ⟨some name, some email, .string password⟩ s).2 email =
          .ok (row :: rest) ∧
      row.name = name ∧ row.email = email ∧
      login pool bcrypt jwt now ⟨some email, .string password, rememberMe⟩
        (register pool bcrypt entropy ⟨some name, some email, .string password⟩ s).2 =
          ⟨200, .loggedIn "Login successful" token expiresIn⟩ ∧
      token ≠ "" ∧ token = jwt.serialize claims ∧
      claims.user_id = row.user_id ∧ claims.name = row.name := by
  obtain ⟨rows, s', row, rest, hins, hsel, hrn, hre, hrh⟩ :=
    hstore s name email (bcrypt.hash password (bcrypt.genSalt 10 entropy)) hnew
  have hreg : register pool bcrypt entropy ⟨some name, some email, .string password⟩ s =
      (⟨201, .registered "Registration successful! Please login to continue." email⟩, s') := by
    rw [register_of_fields pool bcrypt entropy _ password s (by simpa [truthyStr] using hname)
      (by simpa [truthyStr] using hemail) rfl hpassword]
    simp [hins]
  rw [hreg]
  refine ⟨rfl, rfl, row, rest, _, _, _, hsel, hrn, hre,
    login_success pool bcrypt jwt now ⟨some email, .string password, rememberMe⟩ s' row rest
      (by simpa [truthyStr] using hemail) (by simpa [JsValue.truthy] using hpassword) hsel
      (by simpa [Bcrypt.compareValue, hrh] using hhash password (bcrypt.genSalt 10 entropy)),
    serialize_ne_empty _ _, rfl, rfl, rfl⟩

/-- C7 (witness): Cy registers on the example store and logs in. -/
theorem register_then_login_witness :
    (register sqlPool exampleBcrypt 7 ⟨some "Cy", some "cy@example.com", .string "pw3"⟩
      exampleDb).1 =
      ⟨201, .registered "Registration successful! Please login to continue."
        "cy@example.com"⟩ :=
  (register_then_login sqlPool exampleBcrypt exampleJwt 7 100 "Cy" "cy@example.com" "pw3"
    .undefined exampleDb exampleBcrypt_verifiesOwnHash sqlPool_returnsInserted
    (by decide) (by decide) (by decide) (by decide)).1

/-! ### The client: handleSubmit and getTodos -/

/-- The body `handleSubmit` posts never has a `rememberMe` member, whatever the checkbox. -/
theorem handleSubmit_posted_rememberMe (server : LoginBody → Response) (now : Nat)
    (state : LoginState) (storage : Storage) (body : LoginBody)
    (h : (handleSubmit server now state storage).posted = some body) :
    body.rememberMe = .undefined := by
  unfold handleSubmit at h
  simp only [requestBody] at h
  split at h
  · cases h
  · split at h <;> (cases h; rfl)

/-- C2 (the code at the failing input): Ann submits the form with Remember Me
checked; the body posted has no `rememberMe`, the server answers it with
`expiresIn = 3600000` and a token of one hour, and the login completes. -/
theorem handleSubmit_checked_gets_one_hour :
    (handleSubmit exampleServer 1000 ⟨⟨"ann@example.com", "pw1"⟩, true⟩ emptyStorage).posted =
      some ⟨some "ann@example.com", .string "pw1", .undefined⟩ ∧
    exampleServer ⟨some "ann@example.com", .string "pw1", .undefined⟩ =
      ⟨200, .loggedIn "Login successful" (exampleJwt.serialize ⟨1, "Ann", 100, 100 + 3600⟩)
        3600000⟩ ∧
    (handleSubmit exampleServer 1000 ⟨⟨"ann@example.com", "pw1"⟩, true⟩
      emptyStorage).navigatedTo = some "/dashboard" ∧
    exampleServer ⟨some "ann@example.com", .string "pw1", .bool true⟩ =
      ⟨200, .loggedIn "Login successful" (exampleJwt.serialize ⟨1, "Ann", 100, 100 + 604800⟩)
        604800000⟩ := by
  decide

/-- C8 (counterexample): Ann logs in with Remember Me unchecked; afterwards the
key `remember_me` is present in storage, with the value `false`. -/
theorem handleSubmit_unchecked_keeps_remember_me_key :
    (handleSubmit exampleServer 1000 ⟨⟨"ann@example.com", "pw1"⟩, false⟩
      emptyStorage).navigatedTo = some "/dashboard" ∧
    (handleSubmit exampleServer 1000 ⟨⟨"ann@example.com", "pw1"⟩, false⟩
      emptyStorage).storage.getItem "remember_me" = some "false" ∧
    (handleSubmit exampleServer 1000 ⟨⟨"ann@example.com", "pw1"⟩, false⟩
      emptyStorage).storage.getItem "remember_me" ≠ none := by
  decide

/-- C8 (amended): after `handleSubmit` handled the successful response
`{token, expiresIn}` at instant `now`, storage holds `auth_token = token` and
`token_expiry = now + expiresIn`; if Remember Me was checked it holds
`remembered_email`, the submitted email, and `remember_me = "true"`; if it was
not checked `remembered_email` is absent and `remember_me` is `"false"`; every
other key is as before. -/
theorem handleSubmit_success_storage (server : LoginBody → Response) (now : Nat)
    (state : LoginState) (storage : Storage) (message token : String) (expiresIn : Nat)
    (hvalid : validateForm state.formData = ⟨none, none⟩)
    (hresp : server (requestBody state.formData) = ⟨200, .loggedIn message token expiresIn⟩) :
    (handleSubmit server now state storage).storage.getItem "auth_token" = some token ∧
    (handleSubmit server now state storage).storage.getItem "token_expiry" =
      some (toString (now + expiresIn)) ∧
    (state.rememberMe = true →
      (handleSubmit server now state storage).storage.getItem "remembered_email" =
        some state.formData.email ∧
      (handleSubmit server now state storage).storage.getItem "remember_me" = some "true") ∧
    (state.rememberMe = false →
      (handleSubmit server now state storage).storage.getItem "remembered_email" = none ∧
      (handleSubmit server now state storage).storage.getItem "remember_me" = some "false") ∧
    (∀ key, key ≠ "auth_token" → key ≠ "token_expiry" → key ≠ "remembered_email" →
      key ≠ "remember_me" →
      (handleSubmit server now state storage).storage.getItem key = storage.getItem key) := by
  have hne1 : ("auth_token" : String) ≠ "token_expiry" := by decide
  have hne2 : ("remembered_email" : String) ≠ "token_expiry" := by decide
  have hne3 : ("remembered_email" : String) ≠ "auth_token" := by decide
  have hne4 : ("remembered_email" : String) ≠ "remember_me" := by decide
  have hne5 : ("remember_me" : String) ≠ "token_expiry" := by decide
  have hne6 : ("remember_me" : String) ≠ "auth_token" := by decide
  refine ⟨?_, ?_, ?_, ?_, ?_⟩
  · simp [handleSubmit, hvalid, hresp, Storage.getItem, Storage.setItem, Body.token?,
      jsString, hne1]
  · simp [handleSubmit, hvalid, hresp, Storage.getItem, Storage.setItem, Body.expiresIn?,
      expiryText]
  · intro hr
    simp [handleSubmit, hvalid, hresp, Storage.getItem, Storage.setItem, hr, hne2, hne3, hne4,
      hne5, hne6]
  · intro hr
    simp [handleSubmit, hvalid, hresp, Storage.getItem, Storage.setItem, Storage.removeItem,
      hr, hne2, hne3, hne4, hne5, hne6]
  · intro key h1 h2 h3 h4
    cases hr : state.rememberMe <;>
      simp [handleSubmit, hvalid, hresp, Storage.getItem, Storage.setItem, Storage.removeItem,
        hr, h1, h2, h3, h4]

/-- C8 (witness): Ann logs in with Remember Me checked. -/
theorem handleSubmit_success_storage_witness :
    (handleSubmit exampleServer 1000 ⟨⟨"ann@example.com", "pw1"⟩, true⟩
      emptyStorage).storage.getItem "auth_token" =
        some (exampleJwt.serialize ⟨1, "Ann", 100, 100 + 3600⟩) :=
  (handleSubmit_success_storage exampleServer 1000 ⟨⟨"ann@example.com", "pw1"⟩, true⟩
    emptyStorage "Login successful" (exampleJwt.serialize ⟨1, "Ann", 100, 100 + 3600⟩)
    3600000 (by decide) (by decide)).1

/-- After a login with Remember Me unchecked, the mount effect reads the pair
as cleared: it fills in nothing and leaves the box as it was. -/
theorem storedCredentialsEffect_after_unchecked (server : LoginBody → Response) (now : Nat)
    (state next : LoginState) (storage : Storage) (message token : String) (expiresIn : Nat)
    (hvalid : validateForm state.formData = ⟨none, none⟩)
    (hresp : server (requestBody state.formData) = ⟨200, .loggedIn message token expiresIn⟩)
    (hunchecked : state.rememberMe = false) :
    storedCredentialsEffect (handleSubmit server now state storage).storage next = next := by
  have hne2 : ("remembered_email" : String) ≠ "token_expiry" := by decide
  have hne3 : ("remembered_email" : String) ≠ "auth_token" := by decide
  have hne4 : ("remembered_email" : String) ≠ "remember_me" := by decide
  simp [storedCredentialsEffect, handleSubmit, hvalid, hresp, Storage.getItem, Storage.setItem,
    Storage.removeItem, hunchecked, hne2, hne3, hne4, truthyStr]

/-- C9 (the code at the failing input): `api.js` is loaded on an empty
storage, then Ann logs in and her token is stored under `auth_token`; the
header `getTodos` sends is `Bearer null`, not `Bearer` and the stored token. -/
theorem getTodos_sends_token_of_load_time :
    (handleSubmit exampleServer 1000 ⟨⟨"ann@example.com", "pw1"⟩, false⟩
      emptyStorage).storage.getItem "auth_token" = some "hdr.Ann.sig" ∧
    getTodosAuthorization (loadApi emptyStorage) = "Bearer null" ∧
    getTodosAuthorization (loadApi emptyStorage) ≠ "Bearer " ++ "hdr.Ann.sig" := by
  decide

/-! ### The todo routes -/

theorem mem_insertByCreatedAtDesc (x r : TodoRow) (l : List TodoRow) :
    x ∈ insertByCreatedAtDesc r l ↔ x = r ∨ x ∈ l := by
  induction l with
  | nil => simp [insertByCreatedAtDesc]
  | cons y ys ih =>
    unfold insertByCreatedAtDesc
    split
    · simp
    · simp [ih]
      tauto

theorem mem_orderByCreatedAtDesc (x : TodoRow) (l : List TodoRow) :
    x ∈ orderByCreatedAtDesc l ↔ x ∈ l := by
  induction l with
  | nil => simp [orderByCreatedAtDesc]
  | cons y ys ih => simp [orderByCreatedAtDesc, mem_insertByCreatedAtDesc, ih]

theorem todoMatches_user {id user_id : Nat} {r : TodoRow} (h : todoMatches id user_id r = true) :
    r.user_id = user_id := by
  simp [todoMatches] at h
  exact h.2

theorem filter_others_update (id user_id : Nat) (set : TodoRow → TodoRow)
    (hset : ∀ r, (set r).user_id = r.user_id) (l : List TodoRow) :
    (l.map fun r => if todoMatches id user_id r then set r else r).filter
        (fun r => r.user_id != user_id) =
      l.filter (fun r => r.user_id != user_id) := by
  induction l with
  | nil => rfl
  | cons x xs ih =>
    by_cases hm : todoMatches id user_id x = true
    · have hu := todoMatches_user hm
      simp [List.filter, hm, hset, hu, ih]
    · simp only [List.map, hm, if_false, List.filter, ih, Bool.false_eq_true]

theorem filter_others_delete (id user_id : Nat) (l : List TodoRow) :
    (l.filter fun r => !todoMatches id user_id r).filter (fun r => r.user_id != user_id) =
      l.filter (fun r => r.user_id != user_id) := by
  induction l with
  | nil => rfl
  | cons x xs ih =>
    by_cases hm : todoMatches id user_id x = true
    · have hu := todoMatches_user hm
      simp [List.filter, hm, hu, ih]
    · simp [List.filter, hm, ih]

theorem selectTodo_of_other_owner (db : Db) (id user_id : Nat)
    (hown : ∀ r ∈ db.todos, r.todo_id = id → r.user_id ≠ user_id) :
    sqlPool.selectTodo db id user_id = .ok [] := by
  show Except.ok (db.todos.filter (todoMatches id user_id)) = _
  have : db.todos.filter (todoMatches id user_id) = [] := by
    rw [List.filter_eq_nil_iff]
    intro r hr hm
    simp [todoMatches] at hm
    exact hown r hr hm.1 hm.2
  rw [this]

/-- The rows of other users are as before, after any todo request run as `user`. -/
theorem todoRoute_rowsOfOthers (db : Db) (user : Claims) (req : TodoRequest) :
    rowsOfOthers user.user_id (todoRoute sqlPool user req db).2 =
      rowsOfOthers user.user_id db := by
  cases req with
  | post body =>
    simp only [todoRoute, createTodo]
    split
    · rfl
    · simp [sqlPool, rowsOfOthers, List.filter_append, List.filter]
  | list => rfl
  | get id =>
    simp only [todoRoute, getTodo]
    split <;> rfl
  | put id body =>
    simp only [todoRoute, putTodo]
    split
    · rfl
    · cases hsel : db.todos.filter (todoMatches id user.user_id) with
      | nil => simp [sqlPool, hsel]
      | cons r rs =>
        simp only [sqlPool, hsel, List.map, rowsOfOthers]
        exact filter_others_update id user.user_id
          (fun r => { r with title := body.title.getD "", description := body.description.getD "",
                             due_date := body.due_date, priority := body.priority.getD "",
                             is_complete := body.is_complete, updated_at := some db.clock })
          (fun _ => rfl) db.todos
  | delete id =>
    simp only [todoRoute, deleteTodo]
    cases hsel : db.todos.filter (todoMatches id user.user_id) with
    | nil => simp [sqlPool, hsel]
    | cons r rs =>
      simp only [sqlPool, hsel, rowsOfOthers]
      exact filter_others_delete id user.user_id db.todos

/-- C10 (counterexample): Ann (user 1) sends `PUT /todos/2` without a title;
todo 2 is Bob's, and the answer is 400, not 404 `Todo not found`. -/
theorem putTodo_of_other_owner_can_be_400 :
    (∃ r ∈ exampleDb.todos, r.todo_id = 2 ∧ r.user_id ≠ 1) ∧
    (putTodo sqlPool ⟨1, "Ann", 0, 3600⟩ 2 ⟨none, some "d", none, some "low", none⟩
      exampleDb).1 = ⟨400, .error "Title, description, and priority are required"⟩ ∧
    (putTodo sqlPool ⟨1, "Ann", 0, 3600⟩ 2 ⟨none, some "d", none, some "low", none⟩
      exampleDb).1 ≠ ⟨404, .error "Todo not found"⟩ := by
  decide

/-- C10 (amended): on the store that executes the statements, for every state
and every identity `user`: `GET /todos` returns only rows of the table whose
`user_id` is the user's; `GET` and `DELETE /todos/:id` on a todo owned by a
different user answer 404 `Todo not found`, and `PUT /todos/:id` answers 404
when title, description and priority are all present, 400 otherwise; after any
todo request run as `user`, the rows whose `user_id` differs are unchanged. -/
theorem todo_privacy (db : Db) (user : Claims) :
    (∃ rows, listTodos sqlPool user db = (⟨200, .todos rows⟩, db) ∧
      ∀ r ∈ rows, r.user_id = user.user_id ∧ r ∈ db.todos) ∧
    (∀ id, (∀ r ∈ db.todos, r.todo_id = id → r.user_id ≠ user.user_id) →
      getTodo sqlPool user id db = (⟨404, .error "Todo not found"⟩, db) ∧
      deleteTodo sqlPool user id db = (⟨404, .error "Todo not found"⟩, db) ∧
      ∀ body, putTodo sqlPool user id body db =
        if truthyStr body.title && truthyStr body.description && truthyStr body.priority then
          (⟨404, .error "Todo not found"⟩, db)
        else (⟨400, .error "Title, description, and priority are required"⟩, db)) ∧
    (∀ req, rowsOfOthers user.user_id (todoRoute sqlPool user req db).2 =
      rowsOfOthers user.user_id db) := by
  refine ⟨⟨_, rfl, ?_⟩, ?_, todoRoute_rowsOfOthers db user⟩
  · intro r hr
    rw [mem_orderByCreatedAtDesc, List.mem_filter] at hr
    exact ⟨by simpa using hr.2, hr.1⟩
  · intro id hown
    have hsel := selectTodo_of_other_owner db id user.user_id hown
    refine ⟨?_, ?_, ?_⟩
    · simp [getTodo, hsel]
    · simp [deleteTodo, hsel]
    · intro body
      by_cases hb : (truthyStr body.title && truthyStr body.description &&
          truthyStr body.priority) = true
      · have hb' := hb
        simp only [Bool.and_eq_true] at hb'
        simp [putTodo, hsel, hb, hb'.1.1, hb'.1.2, hb'.2]
      · have hb' : (!truthyStr body.title || !truthyStr body.description ||
            !truthyStr body.priority) = true := by
          revert hb
          cases truthyStr body.title <;> cases truthyStr body.description <;>
            cases truthyStr body.priority <;> simp
        simp [putTodo, hb, hb']

/-- C10 (witness): Ann asks for todo 2, which is Bob's. -/
theorem todo_privacy_witness :
    getTodo sqlPool ⟨1, "Ann", 0, 3600⟩ 2 exampleDb =
      (⟨404, .error "Todo not found"⟩, exampleDb) :=
  ((todo_privacy exampleDb ⟨1, "Ann", 0, 3600⟩).2.1 2 (by decide)).1

end TodoApp
